import Mathlib

/-!
# Verification of the instance-manager reconciliation core

A shallow embedding of the Go sources of `instance-manager`:

* `pkg/models/instance.go` — the `Instance` record, `InstanceStatus`, `IsExpired`;
* `internal/scheduler/scheduler.go` — `processInstance`, `handleExpiredInstance`,
  `handleStoppedInstance`, `processInstances`;
* `pkg/storage/file.go` — `loadData` / `ListInstances`;
* `pkg/webserver/server.go` — the `ExpiresAt` writes of `handleExtendInstance`
  and `handleStopInstance`.

Time values (`time.Time`) are modelled as integers (nanoseconds since the
epoch); `time.Duration` likewise.  `a.After(b)` is `a > b`.  The implicit
`time.Now()` calls of the Go code become an explicit `now : Int` argument.

Effectful code is modelled by returning the list of external calls the Go
function issues (`Call`) together with the final in-memory record; the
behaviour of the cloud provider and of the storage backend is an explicit
environment `Env` of response functions.
-/

namespace InstanceManager

/-- The `Instance` struct of `pkg/models/instance.go` (fields irrelevant to the
reconciliation core keep their names but are plain strings / integers). -/
structure Instance where
  ID : String := ""
  InstanceType : String := ""
  Provider : String := ""
  PublicIP : String := ""
  PrivateIP : String := ""
  State : String := ""
  LaunchTime : Int := 0
  Duration : Int := 0
  AvailabilityZone : String := ""
  KeyName : String := ""
  Username : String := ""
  ExpiresAt : Int := 0
deriving DecidableEq, Repr

/-- The `InstanceStatus` struct of `pkg/models/instance.go`. -/
structure InstanceStatus where
  ID : String := ""
  State : String := ""
  PublicIP : String := ""
  PrivateIP : String := ""
  Username : String := ""
  Ready : Bool := false
deriving DecidableEq, Repr

/-- `Instance.IsExpired` (`pkg/models/instance.go` lines 43-46):
`time.Now().After(i.ExpiresAt)`, with `time.Now()` passed explicitly. -/
def Instance.IsExpired (i : Instance) (now : Int) : Bool :=
  now > i.ExpiresAt

/-- One external call issued by the scheduler: a provider operation
(`GetInstanceStatus`, `StartInstance`, `StopInstance`, `TerminateInstance`
from the `cloud.CloudProvider` interface) or a storage write
(`FileStorage.UpdateInstance`). -/
inductive Call where
  | getStatus (id : String)
  | startInstance (id : String)
  | stopInstance (id : String)
  | terminateInstance (id : String)
  | updateInstance (inst : Instance)
deriving DecidableEq, Repr

/-- The environment a reconciliation pass runs against: the provider's
response to a status query (`none` models a query error) and the
success/failure of the provider start/stop calls and of storage updates. -/
structure Env where
  getStatus : String → Option InstanceStatus
  startOk : String → Bool
  stopOk : String → Bool
  updateOk : String → Bool

/-- The in-memory mutation of `processInstance` lines 144-146: copy the live
state and both addresses into the stored record. -/
def syncInstance (inst : Instance) (status : InstanceStatus) : Instance :=
  { inst with
      State := status.State
      PublicIP := status.PublicIP
      PrivateIP := status.PrivateIP }

/-- `Scheduler.handleExpiredInstance` (`scheduler.go` lines 171-192): call the
provider's stop operation; on error return with the record unchanged; on
success set `State = "stopping"` and write the record to storage (a storage
failure is only logged, the in-memory record keeps the new state). -/
def handleExpiredInstance (env : Env) (inst : Instance) : List Call × Instance :=
  if env.stopOk inst.ID then
    ([Call.stopInstance inst.ID,
      Call.updateInstance { inst with State := "stopping" }],
     { inst with State := "stopping" })
  else
    ([Call.stopInstance inst.ID], inst)

/-- `Scheduler.handleStoppedInstance` (`scheduler.go` lines 194-216): call the
provider's start operation (through `Scheduler.startInstance`); on error
return with the record unchanged; on success set `State = "pending"` and
write the record to storage. -/
def handleStoppedInstance (env : Env) (inst : Instance) : List Call × Instance :=
  if env.startOk inst.ID then
    ([Call.startInstance inst.ID,
      Call.updateInstance { inst with State := "pending" }],
     { inst with State := "pending" })
  else
    ([Call.startInstance inst.ID], inst)

/-- `Scheduler.processInstance` (`scheduler.go` lines 114-168), returning the
ordered list of external calls it issues and the final in-memory record:

1. lines 124-128: a record whose stored state is `"terminated"` or
   `"terminating"` is skipped without any call;
2. lines 130-135: query the provider; on error return (only the query call
   was made, nothing mutated);
3. lines 137-151: if the live state differs from the stored state, copy the
   live state and addresses into the record and write it to storage;
4. lines 153-162: if the (possibly synced) record is expired and the live
   state is `"running"` or `"pending"`, handle it as expired; if expired
   otherwise, do nothing more;
5. lines 164-167: if `ExpiresAt` is after `now` and the live state is
   `"stopped"` or `"stopping"`, handle it as a stopped record to restart. -/
def processInstance (env : Env) (now : Int) (inst : Instance) : List Call × Instance :=
  if inst.State = "terminated" ∨ inst.State = "terminating" then
    ([], inst)
  else
    match env.getStatus inst.ID with
    | none => ([Call.getStatus inst.ID], inst)
    | some status =>
      let synced := if status.State ≠ inst.State then syncInstance inst status else inst
      let syncCalls :=
        if status.State ≠ inst.State then
          [Call.updateInstance (syncInstance inst status)]
        else []
      if synced.IsExpired now then
        if status.State = "running" ∨ status.State = "pending" then
          let r := handleExpiredInstance env synced
          (Call.getStatus inst.ID :: syncCalls ++ r.1, r.2)
        else
          (Call.getStatus inst.ID :: syncCalls, synced)
      else
        if synced.ExpiresAt > now ∧ (status.State = "stopped" ∨ status.State = "stopping") then
          let r := handleStoppedInstance env synced
          (Call.getStatus inst.ID :: syncCalls ++ r.1, r.2)
        else
          (Call.getStatus inst.ID :: syncCalls, synced)

/-- The per-record loop of `Scheduler.processInstances` (`scheduler.go`
lines 86-101): each listed record is processed independently; the calls of
one pass are the concatenation of the per-record calls. -/
def processInstances (env : Env) (now : Int) (instances : List Instance) : List Call :=
  match instances with
  | [] => []
  | inst :: rest => (processInstance env now inst).1 ++ processInstances env now rest

/-- The `InstanceRecord` struct of `pkg/models/instance.go`. -/
structure InstanceRecord where
  Instance : Instance
  CreatedAt : Int := 0
  UpdatedAt : Int := 0
deriving DecidableEq, Repr

/-- The `StorageRecord` struct of `pkg/storage/file.go`: the Go
`map[string]*models.InstanceRecord` is modelled as an association list. -/
structure StorageRecord where
  Instances : List (String × InstanceRecord) := []
  UpdatedAt : Int := 0
deriving DecidableEq, Repr

/-- The observable condition of the backing JSON file, enumerating the
outcomes of the `os.Stat` / `os.ReadFile` / `json.Unmarshal` steps of
`FileStorage.loadData`. -/
inductive FileState where
  | missing
  | readError
  | parseError
  | parsed (r : StorageRecord)
deriving DecidableEq, Repr

/-- `FileStorage.loadData` (`pkg/storage/file.go` lines 164-187): a missing
file yields a fresh empty record with no error; a read or unmarshal failure
yields an error; otherwise the parsed record (the Go nil-map normalisation
on `record.Instances` is the identity in this model). -/
def loadData : FileState → Except String StorageRecord
  | .missing => .ok {}
  | .readError => .error "failed to read storage file"
  | .parseError => .error "failed to unmarshal storage data"
  | .parsed r => .ok r

/-- `FileStorage.ListInstances` (`pkg/storage/file.go` lines 88-104): the
returned pair is the Go `([]*models.Instance, error)`, the error modelled
as an `Option String` (`none` is Go's `nil` error).  A `loadData` failure
is swallowed: the empty slice and a `nil` error are returned. -/
def ListInstances (fs : FileState) : List Instance × Option String :=
  match loadData fs with
  | .error _ => ([], none)
  | .ok data => (data.Instances.map (fun p => p.2.Instance), none)

/-- The `ExpiresAt` write of `Server.handleExtendInstance`
(`pkg/webserver/server.go` line 347):
`instance.ExpiresAt = instance.ExpiresAt.Add(duration)`. -/
def handleExtendInstanceUpdate (inst : Instance) (duration : Int) : Instance :=
  { inst with ExpiresAt := inst.ExpiresAt + duration }

/-- The `ExpiresAt` write of `Server.handleStopInstance`
(`pkg/webserver/server.go` lines 389-393):
`instance.ExpiresAt = time.Now()`, written so the scheduler will not
restart the instance. -/
def handleStopInstanceUpdate (inst : Instance) (now : Int) : Instance :=
  { inst with ExpiresAt := now }

/-- `syncInstance` copies state and addresses but leaves `ExpiresAt` alone. -/
theorem syncInstance_ExpiresAt (inst : Instance) (status : InstanceStatus) :
    (syncInstance inst status).ExpiresAt = inst.ExpiresAt := rfl

/-- `syncInstance` leaves the record's identifier alone. -/
theorem syncInstance_ID (inst : Instance) (status : InstanceStatus) :
    (syncInstance inst status).ID = inst.ID := rfl

/-- C1: a record stored as `running` that the provider reports `stopped`,
with `ExpiresAt` strictly in the future, is first synced to `stopped`
(a storage write of the record carrying the live state and addresses) and
then, in the same evaluation, the Start decision is taken: the provider's
start call is issued right after the sync write. -/
theorem C1_drift_sync_then_start (env : Env) (now : Int) (inst : Instance)
    (status : InstanceStatus)
    (hstored : inst.State = "running")
    (hq : env.getStatus inst.ID = some status)
    (hlive : status.State = "stopped")
    (hfut : inst.ExpiresAt > now) :
    (syncInstance inst status).State = "stopped" ∧
    ∃ rest, (processInstance env now inst).1 =
      Call.getStatus inst.ID ::
      Call.updateInstance (syncInstance inst status) ::
      Call.startInstance inst.ID :: rest := by
  have hne : status.State ≠ inst.State := by rw [hstored, hlive]; decide
  have hnexp : (syncInstance inst status).IsExpired now = false := by
    simp [Instance.IsExpired, syncInstance_ExpiresAt]
    omega
  constructor
  · simp [syncInstance, hlive]
  · refine ⟨(handleStoppedInstance env (syncInstance inst status)).1.tail, ?_⟩
    unfold processInstance
    rw [hq]
    cases hstart : env.startOk inst.ID <;>
      simp [hstored, hne, hnexp, hlive, hfut, hstart, syncInstance_ExpiresAt,
        syncInstance_ID, handleStoppedInstance]

/-- C1 witness at a concrete drifted record. -/
theorem C1_drift_sync_then_start_witness :
    (syncInstance { ID := "i-1", State := "running", PublicIP := "1.2.3.4", ExpiresAt := 100 }
        { ID := "i-1", State := "stopped", PublicIP := "5.6.7.8" }).State = "stopped" ∧
    ∃ rest,
      (processInstance
        { getStatus := fun _ => some { ID := "i-1", State := "stopped", PublicIP := "5.6.7.8" },
          startOk := fun _ => true, stopOk := fun _ => true, updateOk := fun _ => true }
        50 { ID := "i-1", State := "running", PublicIP := "1.2.3.4", ExpiresAt := 100 }).1 =
      Call.getStatus "i-1" ::
      Call.updateInstance (syncInstance
        { ID := "i-1", State := "running", PublicIP := "1.2.3.4", ExpiresAt := 100 }
        { ID := "i-1", State := "stopped", PublicIP := "5.6.7.8" }) ::
      Call.startInstance "i-1" :: rest :=
  C1_drift_sync_then_start _ 50 _ _ rfl rfl rfl (by decide)

/-- C4: a record whose stored state is `terminated` or `terminating` is left
entirely alone by a reconciliation pass: no provider call, no storage write,
and the record itself unchanged. -/
theorem C4_terminal_untouched (env : Env) (now : Int) (inst : Instance)
    (h : inst.State = "terminated" ∨ inst.State = "terminating") :
    processInstance env now inst = ([], inst) := by
  unfold processInstance
  simp [h]

/-- C4 witness at a concrete terminated record. -/
theorem C4_terminal_untouched_witness :
    processInstance
      { getStatus := fun _ => some { ID := "i-4", State := "running" },
        startOk := fun _ => true, stopOk := fun _ => true, updateOk := fun _ => true }
      0 { ID := "i-4", State := "terminated", ExpiresAt := -100 } =
    ([], { ID := "i-4", State := "terminated", ExpiresAt := -100 }) :=
  C4_terminal_untouched _ 0 _ (Or.inl rfl)

/-- C6: when the provider status query fails for a non-terminal record, the
pass issues only that query for it: no start, stop or storage write, and the
in-memory record is returned unchanged. -/
theorem C6_query_failure_skips (env : Env) (now : Int) (inst : Instance)
    (hterm1 : inst.State ≠ "terminated") (hterm2 : inst.State ≠ "terminating")
    (hq : env.getStatus inst.ID = none) :
    processInstance env now inst = ([Call.getStatus inst.ID], inst) := by
  unfold processInstance
  simp [hterm1, hterm2, hq]

/-- C6 witness at a concrete record whose status query errors out. -/
theorem C6_query_failure_skips_witness :
    processInstance
      { getStatus := fun _ => none,
        startOk := fun _ => true, stopOk := fun _ => true, updateOk := fun _ => true }
      0 { ID := "i-6", State := "running", ExpiresAt := -100 } =
    ([Call.getStatus "i-6"], { ID := "i-6", State := "running", ExpiresAt := -100 }) :=
  C6_query_failure_skips _ 0 _ (by decide) (by decide) rfl

/-- C9: the per-record decision logic is deterministic: two evaluations with
identical environment, identical current time and identical stored record
produce the identical calls and the identical final record. -/
theorem C9_decide_deterministic (env env' : Env) (now now' : Int)
    (inst inst' : Instance)
    (henv : env = env') (hnow : now = now') (hinst : inst = inst') :
    processInstance env now inst = processInstance env' now' inst' := by
  subst henv
  subst hnow
  subst hinst
  rfl

/-- C9 witness at a concrete input evaluated twice. -/
theorem C9_decide_deterministic_witness :
    processInstance
      { getStatus := fun _ => some { ID := "i-9", State := "running" },
        startOk := fun _ => true, stopOk := fun _ => true, updateOk := fun _ => true }
      0 { ID := "i-9", State := "running", ExpiresAt := 100 } =
    processInstance
      { getStatus := fun _ => some { ID := "i-9", State := "running" },
        startOk := fun _ => true, stopOk := fun _ => true, updateOk := fun _ => true }
      0 { ID := "i-9", State := "running", ExpiresAt := 100 } :=
  C9_decide_deterministic _ _ 0 0 _ _ rfl rfl rfl

/-- A stored-`running` record at the exact boundary instant `now = ExpiresAt`:
used to refute the boundary part of the expiry claim. -/
def instC3 : Instance :=
  { ID := "i-3", State := "running", ExpiresAt := 100 }

/-- An environment whose provider reports `instC3` as live `running` and in
which every provider action and storage write would succeed. -/
def envC3 : Env :=
  { getStatus := fun _ => some { ID := "i-3", State := "running" }
    startOk := fun _ => true
    stopOk := fun _ => true
    updateOk := fun _ => true }

/-- C3 counterexample: at the boundary instant `now = ExpiresAt` (so
`now ≥ ExpiresAt`), a non-terminal record with live state `running` is NOT
stopped: `IsExpired` is the strict `time.Now().After(ExpiresAt)`, so the
evaluation issues no stop call at all. -/
theorem C3_counterexample :
    (100 : Int) ≥ instC3.ExpiresAt ∧
    instC3.State = "running" ∧
    instC3.IsExpired 100 = false ∧
    ∀ id, Call.stopInstance id ∉ (processInstance envC3 100 instC3).1 := by
  refine ⟨by decide, rfl, by decide, ?_⟩
  intro id
  have h : (processInstance envC3 100 instC3).1 = [Call.getStatus "i-3"] := rfl
  rw [h]
  simp

/-- C3 amended: for a non-terminal record whose live state is `running` or
`pending`, the decision is Stop exactly when `now` is strictly after
`ExpiresAt`; at the boundary instant `now = ExpiresAt` the record is not
treated as expired and no stop call is issued. -/
theorem C3_stop_strictly_after_expiry (env : Env) (now : Int) (inst : Instance)
    (status : InstanceStatus)
    (hterm1 : inst.State ≠ "terminated") (hterm2 : inst.State ≠ "terminating")
    (hq : env.getStatus inst.ID = some status)
    (hrun : status.State = "running" ∨ status.State = "pending") :
    (now > inst.ExpiresAt → Call.stopInstance inst.ID ∈ (processInstance env now inst).1) ∧
    (now = inst.ExpiresAt → Call.stopInstance inst.ID ∉ (processInstance env now inst).1) := by
  constructor
  · intro hexp
    have hsynced : ∀ i : Instance, i.ExpiresAt = inst.ExpiresAt → i.IsExpired now = true := by
      intro i hi
      simp [Instance.IsExpired, hi]
      omega
    unfold processInstance
    rw [hq]
    by_cases hne : status.State = inst.State
    · have hrun' : inst.State = "running" ∨ inst.State = "pending" := hne ▸ hrun
      cases hstop : env.stopOk inst.ID <;>
        simp [hterm1, hterm2, hne, hrun', hstop, handleExpiredInstance, hsynced inst rfl]
    · cases hstop : env.stopOk inst.ID <;>
        simp [hterm1, hterm2, hne, hrun, hstop, handleExpiredInstance,
          hsynced _ (syncInstance_ExpiresAt inst status), syncInstance_ID]
  · intro hb
    have hnexp : ∀ i : Instance, i.ExpiresAt = inst.ExpiresAt → i.IsExpired now = false := by
      intro i hi
      simp [Instance.IsExpired, hi]
      omega
    have hnstart : ¬ (inst.ExpiresAt > now) := by omega
    unfold processInstance
    rw [hq]
    by_cases hne : status.State = inst.State <;>
      simp [hterm1, hterm2, hne, hnstart, syncInstance_ExpiresAt,
        hnexp _ (syncInstance_ExpiresAt inst status), hnexp inst rfl]

/-- C3 amended witness: one strictly-expired running record that is stopped
and one boundary record that is not. -/
theorem C3_stop_strictly_after_expiry_witness :
    Call.stopInstance "i-3" ∈ (processInstance envC3 101 instC3).1 ∧
    Call.stopInstance "i-3" ∉ (processInstance envC3 100 instC3).1 :=
  ⟨(C3_stop_strictly_after_expiry envC3 101 instC3 { ID := "i-3", State := "running" }
      (by decide) (by decide) rfl (Or.inl rfl)).1 (by decide),
   (C3_stop_strictly_after_expiry envC3 100 instC3 { ID := "i-3", State := "running" }
      (by decide) (by decide) rfl (Or.inl rfl)).2 rfl⟩

/-- C7: for an expired record on which the Stop action is taken (non-terminal,
live state `running` or `pending`, `now` strictly past `ExpiresAt`): if the
provider stop call succeeds, the local state is set to `stopping` and the
record is written to storage; if the stop call fails, the evaluation ends
right after the stop call with the (possibly drift-synced) record unchanged
and no `stopping` write. -/
theorem C7_stop_action_outcome (env : Env) (now : Int) (inst : Instance)
    (status : InstanceStatus) (synced : Instance)
    (hterm1 : inst.State ≠ "terminated") (hterm2 : inst.State ≠ "terminating")
    (hq : env.getStatus inst.ID = some status)
    (hrun : status.State = "running" ∨ status.State = "pending")
    (hexp : now > inst.ExpiresAt)
    (hsy : synced = if status.State ≠ inst.State then syncInstance inst status else inst) :
    (env.stopOk inst.ID = true →
       processInstance env now inst =
         (Call.getStatus inst.ID ::
            (if status.State ≠ inst.State then
               [Call.updateInstance (syncInstance inst status)] else []) ++
            [Call.stopInstance inst.ID,
             Call.updateInstance { synced with State := "stopping" }],
          { synced with State := "stopping" })) ∧
    (env.stopOk inst.ID = false →
       processInstance env now inst =
         (Call.getStatus inst.ID ::
            (if status.State ≠ inst.State then
               [Call.updateInstance (syncInstance inst status)] else []) ++
            [Call.stopInstance inst.ID],
          synced)) := by
  have hexpd : ∀ i : Instance, i.ExpiresAt = inst.ExpiresAt → i.IsExpired now = true := by
    intro i hi
    simp [Instance.IsExpired, hi]
    omega
  subst hsy
  constructor <;> intro hstop <;> unfold processInstance <;> rw [hq] <;>
    by_cases hne : status.State = inst.State
  case pos | pos =>
    have hrun' : inst.State = "running" ∨ inst.State = "pending" := hne ▸ hrun
    simp [hterm1, hterm2, hne, hrun', hstop, handleExpiredInstance, hexpd inst rfl]
  case neg | neg =>
    simp [hterm1, hterm2, hne, hrun, hstop, handleExpiredInstance,
      hexpd _ (syncInstance_ExpiresAt inst status), syncInstance_ID]

/-- C7 witness: a concrete expired running record with a succeeding stop call
ends `stopping` and persisted; with a failing stop call it is unchanged. -/
theorem C7_stop_action_outcome_witness :
    processInstance envC3 101 instC3 =
      ([Call.getStatus "i-3", Call.stopInstance "i-3",
        Call.updateInstance { instC3 with State := "stopping" }],
       { instC3 with State := "stopping" }) ∧
    processInstance { envC3 with stopOk := fun _ => false } 101 instC3 =
      ([Call.getStatus "i-3", Call.stopInstance "i-3"], instC3) := by
  constructor
  · have h := (C7_stop_action_outcome envC3 101 instC3 { ID := "i-3", State := "running" }
      instC3 (by decide) (by decide) rfl (Or.inl rfl) (by decide) (by decide)).1 rfl
    rw [h]
    rfl
  · have h := (C7_stop_action_outcome { envC3 with stopOk := fun _ => false } 101 instC3
      { ID := "i-3", State := "running" } instC3 (by decide) (by decide) rfl (Or.inl rfl)
      (by decide) (by decide)).2 rfl
    rw [h]
    rfl

/-- A stored record whose state matches the live state but whose public
address differs from the live one: used to refute the address-drift part of
the sync claim. -/
def instC2 : Instance :=
  { ID := "i-2", State := "running", PublicIP := "1.2.3.4", ExpiresAt := 100 }

/-- The live status for `instC2`: same lifecycle state, different address. -/
def statusC2 : InstanceStatus :=
  { ID := "i-2", State := "running", PublicIP := "5.6.7.8" }

/-- An environment reporting `statusC2` for every query. -/
def envC2 : Env :=
  { getStatus := fun _ => some statusC2
    startOk := fun _ => true
    stopOk := fun _ => true
    updateOk := fun _ => true }

/-- C2 counterexample: a non-terminal record whose stored state equals the
live state but whose public address differs is NOT synced: the evaluation
issues no storage write at all (the sync test of `processInstance` compares
only the lifecycle states). -/
theorem C2_counterexample :
    statusC2.State = instC2.State ∧
    statusC2.PublicIP ≠ instC2.PublicIP ∧
    (∀ i : Instance, Call.updateInstance i ∉ (processInstance envC2 50 instC2).1) := by
  refine ⟨rfl, by decide, ?_⟩
  intro i
  have h : (processInstance envC2 50 instC2).1 = [Call.getStatus "i-2"] := rfl
  rw [h]
  simp

/-- C2 amended: a SyncState write (the record carrying the live state and
both live addresses) is issued exactly when the live lifecycle state differs
from the stored one; when the states match — even with differing addresses —
no sync write occurs, and any storage write of the evaluation is an
action-induced `stopping`/`pending` write. -/
theorem C2_sync_iff_state_differs (env : Env) (now : Int) (inst : Instance)
    (status : InstanceStatus)
    (hterm1 : inst.State ≠ "terminated") (hterm2 : inst.State ≠ "terminating")
    (hq : env.getStatus inst.ID = some status) :
    (status.State ≠ inst.State →
       ∃ rest, (processInstance env now inst).1 =
         Call.getStatus inst.ID :: Call.updateInstance (syncInstance inst status) :: rest) ∧
    (status.State = inst.State →
       ∀ i : Instance, Call.updateInstance i ∈ (processInstance env now inst).1 →
         i.State = "stopping" ∨ i.State = "pending") := by
  constructor
  · intro hne
    unfold processInstance
    rw [hq]
    by_cases hexp : (syncInstance inst status).IsExpired now = true
    · by_cases hrun : status.State = "running" ∨ status.State = "pending" <;>
        cases hstop : env.stopOk inst.ID <;>
          simp [hterm1, hterm2, hne, hexp, hrun, hstop, handleExpiredInstance,
            syncInstance_ID]
    · by_cases hstart : (syncInstance inst status).ExpiresAt > now ∧
        (status.State = "stopped" ∨ status.State = "stopping") <;>
        cases hsok : env.startOk inst.ID <;>
          simp [hterm1, hterm2, hne, hexp, hstart, hsok, handleStoppedInstance,
            syncInstance_ID]
  · intro heq i hi
    unfold processInstance at hi
    rw [hq] at hi
    by_cases hexp : inst.IsExpired now = true
    · by_cases hrun : inst.State = "running" ∨ inst.State = "pending" <;>
        cases hstop : env.stopOk inst.ID <;>
          simp [hterm1, hterm2, heq, hexp, hrun, hstop, handleExpiredInstance] at hi
      all_goals simp [hi]
    · by_cases hstart : inst.ExpiresAt > now ∧
        (inst.State = "stopped" ∨ inst.State = "stopping") <;>
        cases hsok : env.startOk inst.ID <;>
          simp [hterm1, hterm2, heq, hexp, hstart, hsok, handleStoppedInstance] at hi
      all_goals simp [hi]

/-- C2 amended witness: a drifted-state record receives the sync write, and
a matching-state record with drifted address receives no sync write. -/
theorem C2_sync_iff_state_differs_witness :
    (∃ rest, (processInstance
        { envC2 with getStatus := fun _ => some { statusC2 with State := "stopped" } }
        50 instC2).1 =
      Call.getStatus "i-2" ::
      Call.updateInstance (syncInstance instC2 { statusC2 with State := "stopped" }) :: rest) ∧
    (∀ i : Instance, Call.updateInstance i ∈ (processInstance envC2 50 instC2).1 →
      i.State = "stopping" ∨ i.State = "pending") :=
  ⟨(C2_sync_iff_state_differs
      { envC2 with getStatus := fun _ => some { statusC2 with State := "stopped" } }
      50 instC2 { statusC2 with State := "stopped" } (by decide) (by decide) rfl).1
      (by decide),
   (C2_sync_iff_state_differs envC2 50 instC2 statusC2 (by decide) (by decide) rfl).2 rfl⟩

/-- A record whose lease still has time left, used to refute the
`ExpiresAt`-monotonicity claim against the stop handler's write. -/
def instC5 : Instance :=
  { ID := "i-5", State := "running", ExpiresAt := 100 }

/-- C5 counterexample: the user-initiated stop handler writes
`ExpiresAt = time.Now()`; for a record whose `ExpiresAt` lies in the future
this moves `ExpiresAt` strictly backward, violating monotonicity as claimed. -/
theorem C5_counterexample :
    (handleStopInstanceUpdate instC5 50).ExpiresAt < instC5.ExpiresAt := by
  decide

/-- C5 amended: reconciliation never changes `ExpiresAt`, and a lease
extension by a nonnegative duration never decreases it; but the
user-initiated stop sets `ExpiresAt` to the current time, which moves it
backward whenever the record's `ExpiresAt` was still in the future. -/
theorem C5_expiry_monotonicity_amended (env : Env) (now : Int) (inst : Instance)
    (d : Int) (hd : 0 ≤ d) :
    (processInstance env now inst).2.ExpiresAt = inst.ExpiresAt ∧
    inst.ExpiresAt ≤ (handleExtendInstanceUpdate inst d).ExpiresAt ∧
    (handleStopInstanceUpdate inst now).ExpiresAt = now := by
  refine ⟨?_, by simp [handleExtendInstanceUpdate]; omega, rfl⟩
  unfold processInstance handleExpiredInstance handleStoppedInstance
  cases hq : env.getStatus inst.ID <;> simp only [hq] <;>
    (repeat' split) <;> simp [syncInstance]

/-- C5 amended witness at a concrete record, zero extension and a concrete
pass. -/
theorem C5_expiry_monotonicity_amended_witness :
    (processInstance envC2 50 instC5).2.ExpiresAt = instC5.ExpiresAt ∧
    instC5.ExpiresAt ≤ (handleExtendInstanceUpdate instC5 0).ExpiresAt ∧
    (handleStopInstanceUpdate instC5 50).ExpiresAt = 50 :=
  C5_expiry_monotonicity_amended envC2 50 instC5 0 (by decide)

/-- No evaluation of `processInstance` ever issues a provider terminate
call, whatever the environment, time and record. -/
theorem processInstance_terminateFree (env : Env) (now : Int) (inst : Instance)
    (id : String) :
    Call.terminateInstance id ∉ (processInstance env now inst).1 := by
  unfold processInstance handleExpiredInstance handleStoppedInstance
  cases hq : env.getStatus inst.ID <;> simp only [hq] <;>
    (repeat' split) <;> simp

/-- C8: a whole reconciliation pass over any list of records never invokes
the provider's terminate operation. -/
theorem C8_never_terminates (env : Env) (now : Int) (instances : List Instance)
    (id : String) :
    Call.terminateInstance id ∉ processInstances env now instances := by
  induction instances with
  | nil => simp [processInstances]
  | cons inst rest ih =>
    simp only [processInstances, List.mem_append]
    rintro (h | h)
    · exact processInstance_terminateFree env now inst id h
    · exact ih h

/-- C10: `ListInstances` never returns an error — whatever the condition of
the backing file, the returned error is Go's `nil` — and whenever `loadData`
fails (unreadable or unparsable file) the returned slice is empty. -/
theorem C10_list_never_errors (fs : FileState) :
    (ListInstances fs).2 = none ∧
    (∀ e, loadData fs = Except.error e → (ListInstances fs).1 = []) := by
  cases fs <;> simp [ListInstances, loadData]

/-- C10 witness: an unreadable backing file yields the empty list and a nil
error. -/
theorem C10_list_never_errors_witness :
    (ListInstances FileState.readError).2 = none ∧
    (ListInstances FileState.readError).1 = [] :=
  ⟨(C10_list_never_errors FileState.readError).1,
   (C10_list_never_errors FileState.readError).2 "failed to read storage file" rfl⟩

end InstanceManager
